import Mathlib

/-!
Shallow embedding of the `mevboost-relay-api` crate and its CLI front-end.

The embedding models:
* the JSON deserialization boundary (`serde_json::from_str` plus the
  `serde_aux` helpers used by the `types.rs` derives) as an executable
  JSON text parser and per-entity decoders;
* the query-option `to_string` encoders of `types.rs`;
* the `Client` operations of `lib.rs`, with the external HTTP capability
  (`reqwest`) abstracted as a function from endpoint URL to either a
  response body or a transport error;
* the CLI `winning-bid-timestamp` branch of `bin/cli/src/main.rs`.

Machine integers (`u64`, `u128`) are modelled as `Nat` with explicit range
checks where the Rust parse would fail; `DateTime<Utc>` is modelled by its
Unix-seconds value.
-/

set_option maxRecDepth 100000

deriving instance DecidableEq for Except

namespace MevBoost

/-- JSON value, the target of `serde_json` text parsing. Numbers are
restricted to unsigned integers, which is the only numeric shape the relay
APIs modelled here transmit. -/
inductive Json where
  | null : Json
  | bool (b : Bool) : Json
  | num (n : Nat) : Json
  | str (s : String) : Json
  | arr (elems : List Json) : Json
  | obj (fields : List (String × Json)) : Json

/-- Skip JSON whitespace. -/
def skipWs : List Char → List Char
  | c :: cs => if c = ' ' ∨ c = '\n' ∨ c = '\t' ∨ c = '\r' then skipWs cs else c :: cs
  | [] => []

/-- Collect the body of a JSON string literal up to the closing quote,
decoding the basic escapes. -/
def parseStringChars : Nat → List Char → Except String (List Char × List Char)
  | 0, _ => .error "recursion limit exceeded"
  | _, [] => .error "EOF while parsing a string"
  | fuel + 1, c :: cs =>
    if c = '"' then .ok ([], cs)
    else if c = '\\' then
      match cs with
      | [] => .error "EOF while parsing a string"
      | e :: cs2 =>
        let d := if e = 'n' then '\n' else if e = 't' then '\t' else if e = 'r' then '\r' else e
        match parseStringChars fuel cs2 with
        | .ok (body, rest) => .ok (d :: body, rest)
        | .error msg => .error msg
    else
      match parseStringChars fuel cs with
      | .ok (body, rest) => .ok (c :: body, rest)
      | .error msg => .error msg

/-- Split off a maximal run of decimal digits. -/
def takeDigits : List Char → (List Char × List Char)
  | [] => ([], [])
  | c :: cs =>
    if c.isDigit then
      let p := takeDigits cs
      (c :: p.1, p.2)
    else ([], c :: cs)

/-- Decimal value of a digit run. -/
def digitsToNat (ds : List Char) : Nat :=
  ds.foldl (fun n c => n * 10 + (c.toNat - 48)) 0

mutual

/-- Recursive-descent JSON value parser (fuel-indexed). -/
def parseValue : Nat → List Char → Except String (Json × List Char)
  | 0, _ => .error "recursion limit exceeded"
  | fuel + 1, cs =>
    match skipWs cs with
    | [] => .error "EOF while parsing a value"
    | 'n' :: 'u' :: 'l' :: 'l' :: rest => .ok (.null, rest)
    | 't' :: 'r' :: 'u' :: 'e' :: rest => .ok (.bool true, rest)
    | 'f' :: 'a' :: 'l' :: 's' :: 'e' :: rest => .ok (.bool false, rest)
    | '"' :: rest =>
      match parseStringChars (rest.length + 1) rest with
      | .ok (body, rest2) => .ok (.str (String.mk body), rest2)
      | .error msg => .error msg
    | '[' :: rest =>
      (match skipWs rest with
      | ']' :: rest2 => .ok (.arr [], rest2)
      | other => parseArrayItems fuel other [])
    | '{' :: rest =>
      (match skipWs rest with
      | '}' :: rest2 => .ok (.obj [], rest2)
      | other => parseObjItems fuel other [])
    | c :: rest =>
      if c.isDigit then
        let p := takeDigits (c :: rest)
        .ok (.num (digitsToNat p.1), p.2)
      else .error "expected value"

/-- Parse the comma-separated items of a JSON array after `[`. -/
def parseArrayItems : Nat → List Char → List Json → Except String (Json × List Char)
  | 0, _, _ => .error "recursion limit exceeded"
  | fuel + 1, cs, acc =>
    match parseValue fuel cs with
    | .error msg => .error msg
    | .ok (v, rest) =>
      match skipWs rest with
      | ',' :: rest2 => parseArrayItems fuel rest2 (acc ++ [v])
      | ']' :: rest2 => .ok (.arr (acc ++ [v]), rest2)
      | _ => .error "expected comma or closing bracket"

/-- Parse the comma-separated members of a JSON object after the opening
brace. -/
def parseObjItems : Nat → List Char → List (String × Json) → Except String (Json × List Char)
  | 0, _, _ => .error "recursion limit exceeded"
  | fuel + 1, cs, acc =>
    match skipWs cs with
    | '"' :: rest =>
      match parseStringChars (rest.length + 1) rest with
      | .error msg => .error msg
      | .ok (keyChars, rest2) =>
        match skipWs rest2 with
        | ':' :: rest3 =>
          (match parseValue fuel rest3 with
          | .error msg => .error msg
          | .ok (v, rest4) =>
            match skipWs rest4 with
            | ',' :: rest5 => parseObjItems fuel rest5 (acc ++ [(String.mk keyChars, v)])
            | '}' :: rest5 => .ok (.obj (acc ++ [(String.mk keyChars, v)]), rest5)
            | _ => .error "expected comma or closing brace")
        | _ => .error "expected colon"
    | _ => .error "key must be a string"

end

/-- `serde_json::from_str` down to a `Json` value: parse one value and
require only whitespace after it. -/
def jsonFromStr (s : String) : Except String Json :=
  let cs := s.toList
  match parseValue (2 * cs.length + 2) cs with
  | .error msg => .error msg
  | .ok (v, rest) =>
    match skipWs rest with
    | [] => .ok v
    | _ => .error "trailing characters"

/-! ## Canonical entities (`types.rs`) -/

/-- `EntryMessage` of `types.rs`. The `DateTime<Utc>` timestamp is modelled
by its Unix-seconds value. -/
structure EntryMessage where
  fee_recipient : String
  gas_limit : Nat
  timestamp : Nat
  pubkey : String
deriving Repr, DecidableEq

/-- `ValidatorEntry` of `types.rs`. -/
structure ValidatorEntry where
  message : EntryMessage
  signature : String
deriving Repr, DecidableEq

/-- `RegisteredValidator` of `types.rs`. -/
structure RegisteredValidator where
  slot : Nat
  validator_index : Option String
  entry : ValidatorEntry
deriving Repr, DecidableEq

/-- `PayloadBidtrace` of `types.rs`. -/
structure PayloadBidtrace where
  slot : Nat
  parent_hash : String
  block_hash : String
  builder_pubkey : String
  proposer_pubkey : String
  proposer_fee_recipient : String
  gas_limit : Nat
  gas_used : Nat
  value : String
  num_tx : Nat
  block_number : Nat
deriving Repr, DecidableEq

/-- `BuilderBlockBidtrace` of `types.rs`: a flattened `PayloadBidtrace`
plus the bid submission timestamp (`u128` milliseconds). -/
structure BuilderBlockBidtrace where
  payload : PayloadBidtrace
  timestamp_ms : Nat
  optimistic_submission : Option Bool
deriving Repr, DecidableEq

/-! ## serde-style field decoders -/

/-- First-match association-list lookup (object field access). -/
def lookupAssoc {α : Type} (fields : List (String × α)) (key : String) : Option α :=
  match fields with
  | [] => none
  | (k, v) :: rest => if k = key then some v else lookupAssoc rest key

/-- Rust `u64::from_str`: optional leading `+`, a nonempty digit run, and
the value must fit in 64 bits. -/
def parseU64 (s : String) : Option Nat :=
  let cs := s.toList
  let cs := match cs with
    | '+' :: rest => rest
    | other => other
  if cs = [] then none
  else if cs.all Char.isDigit then
    let n := digitsToNat cs
    if n < 2 ^ 64 then some n else none
  else none

/-- Decode a required plain string field. -/
def strField (fields : List (String × Json)) (name : String) : Except String String :=
  match lookupAssoc fields name with
  | some (.str s) => .ok s
  | some _ => .error ("invalid type for field `" ++ name ++ "`")
  | none => .error ("missing field `" ++ name ++ "`")

/-- `serde_aux::deserialize_number_from_string` at `u64` (bounded by
`bound`): accepts a JSON number or a JSON string holding an unsigned
decimal integer. -/
def numberFromStringField (bound : Nat) (fields : List (String × Json)) (name : String) :
    Except String Nat :=
  match lookupAssoc fields name with
  | some (.num n) => if n < bound then .ok n else .error ("number out of range for field `" ++ name ++ "`")
  | some (.str s) =>
    match parseU64 s with
    | some n => if n < bound then .ok n else .error ("number out of range for field `" ++ name ++ "`")
    | none => .error ("invalid digit found in string: field `" ++ name ++ "`")
  | some _ => .error ("invalid type for field `" ++ name ++ "`")
  | none => .error ("missing field `" ++ name ++ "`")

/-- `serde_aux::deserialize_datetime_utc_from_seconds`: a JSON number of
Unix-epoch seconds. -/
def datetimeFromSecondsField (fields : List (String × Json)) (name : String) :
    Except String Nat :=
  match lookupAssoc fields name with
  | some (.num n) => .ok n
  | some _ => .error ("invalid type for field `" ++ name ++ "`")
  | none => .error ("missing field `" ++ name ++ "`")

/-- An `Option<String>` field: missing or `null` decodes to `none`. -/
def optStrField (fields : List (String × Json)) (name : String) :
    Except String (Option String) :=
  match lookupAssoc fields name with
  | some (.str s) => .ok (some s)
  | some .null => .ok none
  | some _ => .error ("invalid type for field `" ++ name ++ "`")
  | none => .ok none

/-- An `Option<bool>` field: missing or `null` decodes to `none`. -/
def optBoolField (fields : List (String × Json)) (name : String) :
    Except String (Option Bool) :=
  match lookupAssoc fields name with
  | some (.bool b) => .ok (some b)
  | some .null => .ok none
  | some _ => .error ("invalid type for field `" ++ name ++ "`")
  | none => .ok none

/-! ## Entity decoders (the serde derives of `types.rs`) -/

/-- Decoder for `EntryMessage`: `gas_limit` uses the number-from-string
convention, `timestamp` decodes from epoch seconds. -/
def entryMessageFromJson : Json → Except String EntryMessage
  | .obj fields => do
    let fee_recipient ← strField fields "fee_recipient"
    let gas_limit ← numberFromStringField (2 ^ 64) fields "gas_limit"
    let timestamp ← datetimeFromSecondsField fields "timestamp"
    let pubkey ← strField fields "pubkey"
    .ok { fee_recipient, gas_limit, timestamp, pubkey }
  | _ => .error "invalid type: expected object for EntryMessage"

/-- Decoder for `ValidatorEntry`. -/
def validatorEntryFromJson : Json → Except String ValidatorEntry
  | .obj fields => do
    let message ←
      match lookupAssoc fields "message" with
      | some j => entryMessageFromJson j
      | none => .error "missing field `message`"
    let signature ← strField fields "signature"
    .ok { message, signature }
  | _ => .error "invalid type: expected object for ValidatorEntry"

/-- Decoder for `RegisteredValidator`: `slot` uses the number-from-string
convention. -/
def registeredValidatorFromJson : Json → Except String RegisteredValidator
  | .obj fields => do
    let slot ← numberFromStringField (2 ^ 64) fields "slot"
    let validator_index ← optStrField fields "validator_index"
    let entry ←
      match lookupAssoc fields "entry" with
      | some j => validatorEntryFromJson j
      | none => .error "missing field `entry`"
    .ok { slot, validator_index, entry }
  | _ => .error "invalid type: expected object for RegisteredValidator"

/-- Decoder for `PayloadBidtrace`: all numeric fields except `value` use
the number-from-string convention; `value` stays a string. -/
def payloadBidtraceFromJson : Json → Except String PayloadBidtrace
  | .obj fields => do
    let slot ← numberFromStringField (2 ^ 64) fields "slot"
    let parent_hash ← strField fields "parent_hash"
    let block_hash ← strField fields "block_hash"
    let builder_pubkey ← strField fields "builder_pubkey"
    let proposer_pubkey ← strField fields "proposer_pubkey"
    let proposer_fee_recipient ← strField fields "proposer_fee_recipient"
    let gas_limit ← numberFromStringField (2 ^ 64) fields "gas_limit"
    let gas_used ← numberFromStringField (2 ^ 64) fields "gas_used"
    let value ← strField fields "value"
    let num_tx ← numberFromStringField (2 ^ 64) fields "num_tx"
    let block_number ← numberFromStringField (2 ^ 64) fields "block_number"
    .ok { slot, parent_hash, block_hash, builder_pubkey, proposer_pubkey,
          proposer_fee_recipient, gas_limit, gas_used, value, num_tx, block_number }
  | _ => .error "invalid type: expected object for PayloadBidtrace"

/-- Decoder for `BuilderBlockBidtrace`: `serde(flatten)` puts the
`PayloadBidtrace` fields in the same object; `timestamp_ms` is a `u128`
with the number-from-string convention. -/
def builderBlockBidtraceFromJson : Json → Except String BuilderBlockBidtrace
  | .obj fields => do
    let payload ← payloadBidtraceFromJson (.obj fields)
    let timestamp_ms ← numberFromStringField (2 ^ 128) fields "timestamp_ms"
    let optimistic_submission ← optBoolField fields "optimistic_submission"
    .ok { payload, timestamp_ms, optimistic_submission }
  | _ => .error "invalid type: expected object for BuilderBlockBidtrace"

/-- Decode a JSON array elementwise. -/
def listFromJson {α : Type} (one : Json → Except String α) : Json → Except String (List α)
  | .arr elems =>
    let rec go : List Json → Except String (List α)
      | [] => .ok []
      | j :: rest => do
        let x ← one j
        let xs ← go rest
        .ok (x :: xs)
    go elems
  | _ => .error "invalid type: expected a sequence"

/-- `serde_json::from_str::<Vec<RegisteredValidator>>`. -/
def from_str_registered_validators (body : String) : Except String (List RegisteredValidator) :=
  jsonFromStr body >>= listFromJson registeredValidatorFromJson

/-- `serde_json::from_str::<ValidatorEntry>`. -/
def from_str_validator_entry (body : String) : Except String ValidatorEntry :=
  jsonFromStr body >>= validatorEntryFromJson

/-- `serde_json::from_str::<Vec<PayloadBidtrace>>`. -/
def from_str_payload_bidtraces (body : String) : Except String (List PayloadBidtrace) :=
  jsonFromStr body >>= listFromJson payloadBidtraceFromJson

/-- `serde_json::from_str::<Vec<BuilderBlockBidtrace>>`. -/
def from_str_builder_block_bidtraces (body : String) : Except String (List BuilderBlockBidtrace) :=
  jsonFromStr body >>= listFromJson builderBlockBidtraceFromJson

/-! ## Query filters and their encoders (`types.rs`) -/

/-- `PayloadDeliveredQueryOptions` of `types.rs`. -/
structure PayloadDeliveredQueryOptions where
  slot : Option Nat := none
  cursor : Option Nat := none
  limit : Option Nat := none
  block_hash : Option String := none
  block_number : Option Nat := none
  proposer_pubkey : Option String := none
  builder_pubkey : Option String := none
  order_by : Option String := none
deriving Repr, DecidableEq

/-- `impl ToString for PayloadDeliveredQueryOptions`: start from `?` and
append a `key=value&` pair for each populated field, in field declaration
order. -/
def PayloadDeliveredQueryOptions.to_string (o : PayloadDeliveredQueryOptions) : String :=
  let query := ""
  let query := query ++ "?"
  let query := match o.slot with
    | some slot => query ++ ("slot=" ++ Nat.repr slot ++ "&")
    | none => query
  let query := match o.cursor with
    | some cursor => query ++ ("cursor=" ++ Nat.repr cursor ++ "&")
    | none => query
  let query := match o.limit with
    | some limit => query ++ ("limit=" ++ Nat.repr limit ++ "&")
    | none => query
  let query := match o.block_hash with
    | some block_hash => query ++ ("block_hash=" ++ block_hash ++ "&")
    | none => query
  let query := match o.block_number with
    | some block_number => query ++ ("block_number=" ++ Nat.repr block_number ++ "&")
    | none => query
  let query := match o.proposer_pubkey with
    | some proposer_pubkey => query ++ ("proposer_pubkey=" ++ proposer_pubkey ++ "&")
    | none => query
  let query := match o.builder_pubkey with
    | some builder_pubkey => query ++ ("builder_pubkey=" ++ builder_pubkey ++ "&")
    | none => query
  let query := match o.order_by with
    | some order_by => query ++ ("order_by=" ++ order_by ++ "&")
    | none => query
  query

/-- `BuilderBidsReceivedOptions` of `types.rs`. -/
structure BuilderBidsReceivedOptions where
  slot : Option Nat := none
  block_hash : Option String := none
  block_number : Option Nat := none
  builder_pubkey : Option String := none
  limit : Option Nat := none
deriving Repr, DecidableEq

/-- `impl ToString for BuilderBidsReceivedOptions`. -/
def BuilderBidsReceivedOptions.to_string (o : BuilderBidsReceivedOptions) : String :=
  let query := ""
  let query := query ++ "?"
  let query := match o.slot with
    | some slot => query ++ ("slot=" ++ Nat.repr slot ++ "&")
    | none => query
  let query := match o.block_hash with
    | some block_hash => query ++ ("block_hash=" ++ block_hash ++ "&")
    | none => query
  let query := match o.block_number with
    | some block_number => query ++ ("block_number=" ++ Nat.repr block_number ++ "&")
    | none => query
  let query := match o.builder_pubkey with
    | some builder_pubkey => query ++ ("builder_pubkey=" ++ builder_pubkey ++ "&")
    | none => query
  let query := match o.limit with
    | some limit => query ++ ("limit=" ++ Nat.repr limit ++ "&")
    | none => query
  query

/-! ### Specification-level view of the encoders

The spec describes the encoding as the `?`-prefixed concatenation of one
`key=value&` pair per populated field, in field declaration order. The
following definitions state that view; the C6 theorem relates it to the
source encoders above. -/

/-- Zero-or-one key/value pair for one optional filter field. -/
def optPair (key : String) : Option String → List (String × String)
  | some v => [(key, v)]
  | none => []

/-- Render a pair list as `key=value&` segments. -/
def pairsToQuery : List (String × String) → String
  | [] => ""
  | (k, v) :: rest => k ++ "=" ++ v ++ "&" ++ pairsToQuery rest

/-- The populated fields of a `PayloadDeliveredQueryOptions`, as key/value
pairs in field declaration order. -/
def payloadDeliveredSetPairs (o : PayloadDeliveredQueryOptions) : List (String × String) :=
  optPair "slot" (o.slot.map Nat.repr) ++
  optPair "cursor" (o.cursor.map Nat.repr) ++
  optPair "limit" (o.limit.map Nat.repr) ++
  optPair "block_hash" o.block_hash ++
  optPair "block_number" (o.block_number.map Nat.repr) ++
  optPair "proposer_pubkey" o.proposer_pubkey ++
  optPair "builder_pubkey" o.builder_pubkey ++
  optPair "order_by" o.order_by

/-- The populated fields of a `BuilderBidsReceivedOptions`, as key/value
pairs in field declaration order. -/
def builderBidsSetPairs (o : BuilderBidsReceivedOptions) : List (String × String) :=
  optPair "slot" (o.slot.map Nat.repr) ++
  optPair "block_hash" o.block_hash ++
  optPair "block_number" (o.block_number.map Nat.repr) ++
  optPair "builder_pubkey" o.builder_pubkey ++
  optPair "limit" (o.limit.map Nat.repr)

/-! ## Constants (`constants.rs`) -/

/-- `GET_VALIDATORS_ENDPOINT` of `constants.rs`. -/
def GET_VALIDATORS_ENDPOINT : String := "/relay/v1/builder/validators"

/-- `CHECK_VALIDATOR_REGISTRATION` of `constants.rs`. -/
def CHECK_VALIDATOR_REGISTRATION : String := "/relay/v1/data/validator_registration"

/-- `GET_DELIVERED_PAYLOADS` of `constants.rs`. -/
def GET_DELIVERED_PAYLOADS : String := "/relay/v1/data/bidtraces/proposer_payload_delivered"

/-- Modelled from the spec: the constant `GET_BUILDER_BLOCKS_RECEIVED` is
referenced by `lib.rs` but missing from the provided `constants.rs`; the
spec describes it only as the relay-specific fixed path for bid
submissions, so an opaque fixed path value is used. -/
def GET_BUILDER_BLOCKS_RECEIVED : String := "/relay/v1/builder/blocks_received"

/-- `DEFAULT_RELAYS` of `constants.rs`, as a name-to-endpoint table. -/
def DEFAULT_RELAYS : List (String × String) :=
  [("ultrasound", "https://0xa1559ace749633b997cb3fdacffb890aeebdb0f5a3b6aaa7eeeaf1a38af0a8fe88b9e4b1f61f236d2e64d95733327a62@relay.ultrasound.money"),
   ("flashbots", "https://0xac6e77dfe25ecd6110b8e780608cce0dab71fdd5ebea22a16c0205200f2f8e2e3ad3b71d3499c54ad14d6c21b41a37ae@boost-relay.flashbots.net"),
   ("aestus", "https://0xa15b52576bcbf1072f4a011c0f99f9fb6c66f3e1ff321f11f461d15e31b1cb359caa092c71bbded0bae5b5ea401aab7e@aestus.live"),
   ("agnostic", "https://0xa7ab7a996c8584251c8f925da3170bdfd6ebc75d50f5ddc4050a6fdc77f2a3b5fce2cc750d0865e05d7228af97d69561@agnostic-relay.net"),
   ("bloxroute-max-profit", "https://0x8b5d2e73e2a3a55c6c87b8b6eb92e0149a125c852751db1422fa951e42a09b82c142c3ea98d0d9930b056a3bc9896b8f@bloxroute.max-profit.blxrbdn.com"),
   ("bloxroute-regulated", "https://0xb0b07cd0abef743db4260b0ed50619cf6ad4d82064cb4fbec9d3ec530f7c5e6793d9f286c4e082c0244ffb9f2658fe88@bloxroute.regulated.blxrbdn.com")]

/-! ## Client (`lib.rs`) -/

/-- The errors the client operations can produce. The source uses
`anyhow::Error` values created at exactly three kinds of sites: the
registry lookup miss of `get_relay_url`, a propagated `reqwest` transport
error, and the `Failed to parse JSON response` wrapper around a serde
error. Each constructor carries the source's message content. -/
inductive ClientError where
  | unknownRelay (name : String) : ClientError
  | transport (msg : String) : ClientError
  | parse (msg : String) : ClientError
deriving Repr, DecidableEq

/-- `Client` of `lib.rs`: the relay table plus the external HTTP GET
capability (`reqwest`, §6 of the spec), modelled as a function from an
endpoint URL to a response body or a transport error message. -/
structure Client where
  relays : List (String × String)
  http : String → Except String String

/-- `Client::get_relay_url`. -/
def Client.get_relay_url (c : Client) (relay_name : String) : Except ClientError String :=
  match lookupAssoc c.relays relay_name with
  | some url => .ok url
  | none => .error (.unknownRelay relay_name)

/-- `Client::fetch`: HTTP GET with standard headers; a collaborator error
is propagated as a transport failure. -/
def Client.fetch (c : Client) (endpoint : String) : Except ClientError String :=
  match c.http endpoint with
  | .ok body => .ok body
  | .error msg => .error (.transport msg)

/-- `Client::get_validators_for_current_and_next_epoch`. -/
def Client.get_validators_for_current_and_next_epoch (c : Client) (relay_name : String) :
    Except ClientError (List RegisteredValidator) :=
  match c.get_relay_url relay_name with
  | .error e => .error e
  | .ok relay_url =>
    match c.fetch (relay_url ++ GET_VALIDATORS_ENDPOINT) with
    | .error e => .error e
    | .ok response =>
      match from_str_registered_validators response with
      | .ok v => .ok v
      | .error e => .error (.parse ("Failed to parse JSON response: " ++ e))

/-- `Client::get_validator_registration`. -/
def Client.get_validator_registration (c : Client) (relay_name : String) (pubkey : String) :
    Except ClientError ValidatorEntry :=
  match c.get_relay_url relay_name with
  | .error e => .error e
  | .ok relay_url =>
    match c.fetch (relay_url ++ CHECK_VALIDATOR_REGISTRATION ++ "?pubkey=" ++ pubkey) with
    | .error e => .error e
    | .ok response =>
      match from_str_validator_entry response with
      | .ok v => .ok v
      | .error e => .error (.parse ("Failed to parse JSON response: " ++ e))

/-- `Client::get_payload_delivered_bidtraces`. -/
def Client.get_payload_delivered_bidtraces (c : Client) (relay_name : String)
    (opts : PayloadDeliveredQueryOptions) : Except ClientError (List PayloadBidtrace) :=
  match c.get_relay_url relay_name with
  | .error e => .error e
  | .ok relay_url =>
    match c.fetch (relay_url ++ GET_DELIVERED_PAYLOADS ++ opts.to_string) with
    | .error e => .error e
    | .ok response =>
      match from_str_payload_bidtraces response with
      | .ok v => .ok v
      | .error e => .error (.parse ("Failed to parse JSON response: " ++ e))

/-- `Client::get_builder_blocks_received`. -/
def Client.get_builder_blocks_received (c : Client) (relay_name : String)
    (opts : BuilderBidsReceivedOptions) : Except ClientError (List BuilderBlockBidtrace) :=
  match c.get_relay_url relay_name with
  | .error e => .error e
  | .ok relay_url =>
    match c.fetch (relay_url ++ GET_BUILDER_BLOCKS_RECEIVED ++ opts.to_string) with
    | .error e => .error e
    | .ok response =>
      match from_str_builder_block_bidtraces response with
      | .ok v => .ok v
      | .error e => .error (.parse ("Failed to parse JSON response: " ++ e))

/-! ## Multi-relay aggregation (`lib.rs`) -/

/-- `HashMap::insert`: replace the value at an existing key, else append. -/
def insertAssoc {α : Type} (m : List (String × α)) (key : String) (v : α) :
    List (String × α) :=
  match m with
  | [] => [(key, v)]
  | (k, w) :: rest => if k = key then (k, v) :: rest else (k, w) :: insertAssoc rest key v

/-- The relay loop of `Client::get_validator_registration_on_all_relays`:
a successful single-relay call is inserted into the map, a failing one is
logged and skipped. -/
def regAllLoop (c : Client) (pubkey : String) :
    List (String × String) → List (String × ValidatorEntry) → List (String × ValidatorEntry)
  | [], acc => acc
  | relay :: rest, acc =>
    match c.get_validator_registration relay.1 pubkey with
    | .ok relay_res => regAllLoop c pubkey rest (insertAssoc acc relay.1 relay_res)
    | .error _ => regAllLoop c pubkey rest acc

/-- `Client::get_validator_registration_on_all_relays`. -/
def Client.get_validator_registration_on_all_relays (c : Client) (pubkey : String) :
    Except ClientError (List (String × ValidatorEntry)) :=
  .ok (regAllLoop c pubkey c.relays [])

/-- `HashMap::entry(slot).or_insert_with(Vec::new)` followed by
`push(relay_name)`. -/
def entryPush (m : List (Nat × List String)) (slot : Nat) (relay_name : String) :
    List (Nat × List String) :=
  match m with
  | [] => [(slot, [relay_name])]
  | (k, v) :: rest =>
    if k = slot then (k, v ++ [relay_name]) :: rest else (k, v) :: entryPush rest slot relay_name

/-- `HashMap::entry(slot).or_insert_with(Vec::new)` with no push. -/
def entryOrEmpty (m : List (Nat × List String)) (slot : Nat) : List (Nat × List String) :=
  match m with
  | [] => [(slot, [])]
  | (k, v) :: rest =>
    if k = slot then (k, v) :: rest else (k, v) :: entryOrEmpty rest slot

/-- `HashMap::keys().min()`. -/
def minKey (m : List (Nat × List String)) : Option Nat :=
  match m with
  | [] => none
  | (k, _) :: rest =>
    match minKey rest with
    | none => some k
    | some n => some (Nat.min k n)

/-- The relay loop of
`Client::get_validator_registration_for_all_slots_on_all_relays`: any
failing per-relay epoch-validators call aborts the whole aggregate via
`?`. -/
def regSlotsLoop (c : Client) :
    List (String × String) → List (Nat × List String) →
    Except ClientError (List (Nat × List String))
  | [], acc => .ok acc
  | relay :: rest, acc =>
    match c.get_validators_for_current_and_next_epoch relay.1 with
    | .error e => .error e
    | .ok relay_res =>
      regSlotsLoop c rest (relay_res.foldl (fun m v => entryPush m v.slot relay.1) acc)

/-- `Client::get_validator_registration_for_all_slots_on_all_relays`:
build the slot-to-relays map, then fill unregistered slots in
`initial_slot..initial_slot + 63` (a half-open Rust range) with empty
vectors. -/
def Client.get_validator_registration_for_all_slots_on_all_relays (c : Client) :
    Except ClientError (List (Nat × List String)) :=
  match regSlotsLoop c c.relays [] with
  | .error e => .error e
  | .ok validator_registrations =>
    match minKey validator_registrations with
    | none => .ok validator_registrations
    | some initial_slot =>
      .ok ((List.range 63).foldl (fun m i => entryOrEmpty m (initial_slot + i))
            validator_registrations)

/-- `Client::get_vanilla_slots_for_current_and_next_epoch`. -/
def Client.get_vanilla_slots_for_current_and_next_epoch (c : Client) :
    Except ClientError (List Nat) :=
  match c.get_validator_registration_for_all_slots_on_all_relays with
  | .error e => .error e
  | .ok all => .ok ((all.filter (fun kv => kv.2.isEmpty)).map (fun kv => kv.1))

/-- Modelled from the spec: `get_payloads_delivered_bidtraces_on_all_relays`
is called by the CLI but its definition is not among the provided sources.
Per §4.5 the multi-relay aggregator fans the single-relay delivered-payloads
query across every relay in the table and drops a failing relay from the
result mapping without failing the aggregate. -/
def Client.get_payloads_delivered_bidtraces_on_all_relays (c : Client)
    (opts : PayloadDeliveredQueryOptions) :
    Except ClientError (List (String × List PayloadBidtrace)) :=
  .ok (c.relays.foldl (fun acc relay =>
    match c.get_payload_delivered_bidtraces relay.1 opts with
    | .ok res => insertAssoc acc relay.1 res
    | .error _ => acc) [])

/-! ## CLI `winning-bid-timestamp` branch (`bin/cli/src/main.rs`) -/

/-- Outcome of a CLI run: the printed per-relay winning-bid timestamps, a
propagated error (`anyhow::Result` of `main`), or a Rust panic. -/
inductive CliOutcome where
  | ok (entries : List (String × Nat)) : CliOutcome
  | err (e : ClientError) : CliOutcome
  | panicked (msg : String) : CliOutcome
deriving Repr, DecidableEq

/-- The per-relay loop of the `Command::WinningBidTimestamp` branch: skip
relays with no delivered payload, query builder blocks for the first
payload's block hash, then read `block_bids[0].timestamp_ms` — a vector
index, which panics when the bid list is empty. -/
def winningBidLoop (c : Client) (slot : Nat) :
    List (String × List PayloadBidtrace) → List (String × Nat) → CliOutcome
  | [], acc => .ok acc
  | (relay, relay_payloads) :: rest, acc =>
    match relay_payloads with
    | [] => winningBidLoop c slot rest acc
    | payload :: _ =>
      let block_hash := payload.block_hash
      match c.get_builder_blocks_received relay
          { slot := some slot, block_hash := some block_hash } with
      | .error e => .err e
      | .ok [] => .panicked "index out of bounds: the len is 0 but the index is 0"
      | .ok (bid :: _) => winningBidLoop c slot rest (acc ++ [(relay, bid.timestamp_ms)])

/-- The `Command::WinningBidTimestamp` branch of the CLI `main`. -/
def winning_bid_timestamp (c : Client) (slot : Nat) : CliOutcome :=
  match c.get_payloads_delivered_bidtraces_on_all_relays
      { slot := some slot } with
  | .error e => .err e
  | .ok payloads => winningBidLoop c slot payloads []

/-! ## Observation helpers -/

/-- The value of a successful call. -/
def exceptToOption {ε α : Type} : Except ε α → Option α
  | .ok v => some v
  | .error _ => none

/-- Whether a call succeeded. -/
def exceptIsOk {ε α : Type} : Except ε α → Bool
  | .ok _ => true
  | .error _ => false

/-- Whether a call failed at the JSON-parse stage. -/
def isParseFailure {α : Type} : Except ClientError α → Bool
  | .error (.parse _) => true
  | _ => false

/-- The key set of a successful slot-to-relays mapping. -/
def resultKeys (r : Except ClientError (List (Nat × List String))) : List Nat :=
  match r with
  | .ok m => m.map Prod.fst
  | .error _ => []

/-- The number of slots in a successful vanilla-slot result. -/
def vanillaCount (r : Except ClientError (List Nat)) : Nat :=
  match r with
  | .ok l => l.length
  | .error _ => 0

/-! ## Concrete fixtures

Offline clients whose HTTP capability serves fixed response bodies,
realizing the concrete scenarios named by the specification. -/

/-- Relay X reports one registration at slot 100. -/
def bodyX : String := "[\x7b\"slot\":\"100\",\"entry\":\x7b\"message\":\x7b\"fee_recipient\":\"f\",\"gas_limit\":\"1\",\"timestamp\":1,\"pubkey\":\"p\"\x7d,\"signature\":\"s\"\x7d\x7d]"

/-- Relay Y reports one registration at slot 105. -/
def bodyY : String := "[\x7b\"slot\":\"105\",\"entry\":\x7b\"message\":\x7b\"fee_recipient\":\"f\",\"gas_limit\":\"1\",\"timestamp\":1,\"pubkey\":\"p\"\x7d,\"signature\":\"s\"\x7d\x7d]"

/-- Two relays: X registered at slot 100, Y at slot 105. -/
def clientXY : Client :=
  { relays := [("X", "https://x"), ("Y", "https://y")]
    http := fun e =>
      if e = "https://x" ++ GET_VALIDATORS_ENDPOINT then .ok bodyX
      else if e = "https://y" ++ GET_VALIDATORS_ENDPOINT then .ok bodyY
      else .error "no response" }

/-- One delivered payload for slot 7761220 with block hash `0xabc`. -/
def payloadBodyUS : String := "[\x7b\"slot\":\"7761220\",\"parent_hash\":\"0xp\",\"block_hash\":\"0xabc\",\"builder_pubkey\":\"b\",\"proposer_pubkey\":\"pr\",\"proposer_fee_recipient\":\"fr\",\"gas_limit\":\"1\",\"gas_used\":\"1\",\"value\":\"1\",\"num_tx\":\"1\",\"block_number\":\"1\"\x7d]"

/-- One builder bid for slot 7761220 and block hash `0xabc`, submitted at
1690000000000 ms. -/
def bidBodyUS : String := "[\x7b\"slot\":\"7761220\",\"parent_hash\":\"0xp\",\"block_hash\":\"0xabc\",\"builder_pubkey\":\"b\",\"proposer_pubkey\":\"pr\",\"proposer_fee_recipient\":\"fr\",\"gas_limit\":\"1\",\"gas_used\":\"1\",\"value\":\"1\",\"num_tx\":\"1\",\"block_number\":\"1\",\"timestamp_ms\":1690000000000\x7d]"

/-- Delivered-payloads endpoint of the `ultrasound` fixture for slot
7761220. -/
def deliveredEndpointUS : String := "https://u" ++ GET_DELIVERED_PAYLOADS ++ "?slot=7761220&"

/-- Delivered-payloads endpoint of the `flashbots` fixture for slot
7761220. -/
def deliveredEndpointFB : String := "https://f" ++ GET_DELIVERED_PAYLOADS ++ "?slot=7761220&"

/-- Builder-blocks endpoint of the `ultrasound` fixture for slot 7761220
and block hash `0xabc`. -/
def bidsEndpointUS : String := "https://u" ++ GET_BUILDER_BLOCKS_RECEIVED ++ "?slot=7761220&block_hash=0xabc&"

/-- Scenario of spec §8.7: `ultrasound` delivered one payload for slot
7761220 and its builder-blocks query returns one matching bid;
`flashbots` delivered nothing for that slot. -/
def clientWinning : Client :=
  { relays := [("ultrasound", "https://u"), ("flashbots", "https://f")]
    http := fun e =>
      if e = deliveredEndpointUS then .ok payloadBodyUS
      else if e = deliveredEndpointFB then .ok "[]"
      else if e = bidsEndpointUS then .ok bidBodyUS
      else .error "no response" }

/-- Scenario of spec §8.8: as `clientWinning`, but the builder-blocks
query returns zero bids. -/
def clientNoBids : Client :=
  { relays := [("ultrasound", "https://u")]
    http := fun e =>
      if e = deliveredEndpointUS then .ok payloadBodyUS
      else if e = bidsEndpointUS then .ok "[]"
      else .error "no response" }

/-- A relay that reports no registration for the pubkey: the server
returns an empty body. -/
def clientEmptyBody : Client :=
  { relays := [("r", "https://r")]
    http := fun _ => .ok "" }

/-- A relay that returns a malformed (non-JSON) body. -/
def clientMalformedBody : Client :=
  { relays := [("r", "https://r")]
    http := fun _ => .ok "xyz" }

/-- A well-formed `ValidatorEntry` response body. -/
def entryBody : String := "\x7b\"message\":\x7b\"fee_recipient\":\"f\",\"gas_limit\":\"1\",\"timestamp\":1,\"pubkey\":\"pk\"\x7d,\"signature\":\"s\"\x7d"

/-- Two relays: registration checks succeed on A and fail on B with a
transport error. -/
def clientPartial : Client :=
  { relays := [("A", "https://a"), ("B", "https://b")]
    http := fun e =>
      if e = "https://a" ++ CHECK_VALIDATOR_REGISTRATION ++ "?pubkey=pk" then .ok entryBody
      else .error "connection refused" }

/-- One relay that reports zero registrations for the epoch query. -/
def clientNoRegs : Client :=
  { relays := [("a", "https://a")]
    http := fun _ => .ok "[]" }

/-- Two relays on which every call fails at the transport layer. -/
def clientAllFail : Client :=
  { relays := [("a", "https://a"), ("b", "https://b")]
    http := fun _ => .error "connection refused" }

/-- The entity `payloadBodyUS` decodes to. -/
def payloadUS : PayloadBidtrace :=
  { slot := 7761220, parent_hash := "0xp", block_hash := "0xabc", builder_pubkey := "b",
    proposer_pubkey := "pr", proposer_fee_recipient := "fr", gas_limit := 1, gas_used := 1,
    value := "1", num_tx := 1, block_number := 1 }

/-- The entity `bidBodyUS` decodes to. -/
def bidUS : BuilderBlockBidtrace :=
  { payload := payloadUS, timestamp_ms := 1690000000000, optimistic_submission := none }

/-- The specification's description of the winning-bid-timestamp
correlator (spec 4.6), stated in the spec's words for comparison with the
CLI loop: for each relay of the payload mapping that returned at least one
payload, take its first payload's block hash, query that same relay's
builder blocks filtered by the slot and that hash, and take the first
returned bid's timestamp; relays with no delivered payload produce no
entry. -/
def winningBidTimestampSpec (c : Client) (slot : Nat)
    (payloads : List (String × List PayloadBidtrace)) : List (String × Nat) :=
  payloads.filterMap fun rp =>
    match rp.2 with
    | [] => none
    | payload :: _ =>
      match c.get_builder_blocks_received rp.1
          { slot := some slot, block_hash := some payload.block_hash } with
      | .ok (bid :: _) => some (rp.1, bid.timestamp_ms)
      | _ => none

/-- C8 fixture: a `PayloadBidtrace` object whose `slot` field is the given
JSON value and whose remaining fields are well-formed. -/
def c8Body (slotJson : Json) : Json :=
  .obj [("slot", slotJson), ("parent_hash", .str "ph"), ("block_hash", .str "bh"),
        ("builder_pubkey", .str "b"), ("proposer_pubkey", .str "pr"),
        ("proposer_fee_recipient", .str "fr"), ("gas_limit", .num 1), ("gas_used", .num 1),
        ("value", .str "1"), ("num_tx", .num 1), ("block_number", .num 1)]

/-- The entity decoded from `c8Body` when `slot` decodes to `n`. -/
def c8Entity (n : Nat) : PayloadBidtrace :=
  { slot := n, parent_hash := "ph", block_hash := "bh", builder_pubkey := "b",
    proposer_pubkey := "pr", proposer_fee_recipient := "fr", gas_limit := 1, gas_used := 1,
    value := "1", num_tx := 1, block_number := 1 }

/-! ## Supporting lemmas -/

set_option maxHeartbeats 4000000

/-- `Except` bind on a success reduces to the continuation. -/
theorem okBind {ε α β : Type} (a : α) (f : α → Except ε β) :
    ((Except.ok a : Except ε α) >>= f) = f a := rfl

/-- `Except` bind on a failure short-circuits. -/
theorem errorBind {ε α β : Type} (e : ε) (f : α → Except ε β) :
    ((Except.error e : Except ε α) >>= f) = Except.error e := rfl

/-- `pairsToQuery` distributes over list append. -/
theorem pairsToQuery_append (l1 l2 : List (String × String)) :
    pairsToQuery (l1 ++ l2) = pairsToQuery l1 ++ pairsToQuery l2 := by
  induction l1 with
  | nil => simp [pairsToQuery, String.empty_append]
  | cons kv rest ih =>
    obtain ⟨k, v⟩ := kv
    simp [pairsToQuery, ih, String.append_assoc]

/-- The source `to_string` of `PayloadDeliveredQueryOptions` equals the
spec-level `?`-prefixed declaration-order rendering of its set fields. -/
theorem payload_to_string_spec (o : PayloadDeliveredQueryOptions) :
    o.to_string = "?" ++ pairsToQuery (payloadDeliveredSetPairs o) := by
  obtain ⟨s, c, l, bh, bn, pp, bp, ob⟩ := o
  cases s <;> cases c <;> cases l <;> cases bh <;> cases bn <;> cases pp <;> cases bp <;> cases ob <;>
    (simp only [PayloadDeliveredQueryOptions.to_string, payloadDeliveredSetPairs, optPair,
      pairsToQuery, Option.map_some, Option.map_none, List.nil_append, List.append_nil,
      List.cons_append, List.singleton_append] <;>
     (try simp only [String.empty_append, String.append_assoc, String.append_empty]) <;>
     (try rfl))

/-- The source `to_string` of `BuilderBidsReceivedOptions` equals the
spec-level `?`-prefixed declaration-order rendering of its set fields. -/
theorem builder_to_string_spec (o : BuilderBidsReceivedOptions) :
    o.to_string = "?" ++ pairsToQuery (builderBidsSetPairs o) := by
  obtain ⟨s, bh, bn, bp, l⟩ := o
  cases s <;> cases bh <;> cases bn <;> cases bp <;> cases l <;>
    (simp only [BuilderBidsReceivedOptions.to_string, builderBidsSetPairs, optPair,
      pairsToQuery, Option.map_some, Option.map_none, List.nil_append, List.append_nil,
      List.cons_append, List.singleton_append] <;>
     (try simp only [String.empty_append, String.append_assoc, String.append_empty]) <;>
     (try rfl))

/-- Membership in one optional-field segment of an encoded pair list. -/
theorem pair_mem_optPair (key k x : String) (v : Option String) :
    ((k, x) ∈ optPair key v) ↔ (k = key ∧ v = some x) := by
  cases v with
  | none => simp [optPair]
  | some w => simp [optPair, eq_comm]

/-- Each filter key appears among the encoded keys of a
`PayloadDeliveredQueryOptions` exactly when its field is set. -/
theorem payload_unset_keys (o : PayloadDeliveredQueryOptions) :
    ("slot" ∈ (payloadDeliveredSetPairs o).map Prod.fst ↔ o.slot ≠ none) ∧
    ("cursor" ∈ (payloadDeliveredSetPairs o).map Prod.fst ↔ o.cursor ≠ none) ∧
    ("limit" ∈ (payloadDeliveredSetPairs o).map Prod.fst ↔ o.limit ≠ none) ∧
    ("block_hash" ∈ (payloadDeliveredSetPairs o).map Prod.fst ↔ o.block_hash ≠ none) ∧
    ("block_number" ∈ (payloadDeliveredSetPairs o).map Prod.fst ↔ o.block_number ≠ none) ∧
    ("proposer_pubkey" ∈ (payloadDeliveredSetPairs o).map Prod.fst ↔ o.proposer_pubkey ≠ none) ∧
    ("builder_pubkey" ∈ (payloadDeliveredSetPairs o).map Prod.fst ↔ o.builder_pubkey ≠ none) ∧
    ("order_by" ∈ (payloadDeliveredSetPairs o).map Prod.fst ↔ o.order_by ≠ none) := by
  refine ⟨?_, ?_, ?_, ?_, ?_, ?_, ?_, ?_⟩
  · cases h : o.slot <;> simp [payloadDeliveredSetPairs, h, pair_mem_optPair]
  · cases h : o.cursor <;> simp [payloadDeliveredSetPairs, h, pair_mem_optPair]
  · cases h : o.limit <;> simp [payloadDeliveredSetPairs, h, pair_mem_optPair]
  · cases h : o.block_hash <;> simp [payloadDeliveredSetPairs, h, pair_mem_optPair]
  · cases h : o.block_number <;> simp [payloadDeliveredSetPairs, h, pair_mem_optPair]
  · cases h : o.proposer_pubkey <;> simp [payloadDeliveredSetPairs, h, pair_mem_optPair]
  · cases h : o.builder_pubkey <;> simp [payloadDeliveredSetPairs, h, pair_mem_optPair]
  · cases h : o.order_by <;> simp [payloadDeliveredSetPairs, h, pair_mem_optPair]

/-- Each filter key appears among the encoded keys of a
`BuilderBidsReceivedOptions` exactly when its field is set. -/
theorem builder_unset_keys (o : BuilderBidsReceivedOptions) :
    ("slot" ∈ (builderBidsSetPairs o).map Prod.fst ↔ o.slot ≠ none) ∧
    ("block_hash" ∈ (builderBidsSetPairs o).map Prod.fst ↔ o.block_hash ≠ none) ∧
    ("block_number" ∈ (builderBidsSetPairs o).map Prod.fst ↔ o.block_number ≠ none) ∧
    ("builder_pubkey" ∈ (builderBidsSetPairs o).map Prod.fst ↔ o.builder_pubkey ≠ none) ∧
    ("limit" ∈ (builderBidsSetPairs o).map Prod.fst ↔ o.limit ≠ none) := by
  refine ⟨?_, ?_, ?_, ?_, ?_⟩
  · cases h : o.slot <;> simp [builderBidsSetPairs, h, pair_mem_optPair]
  · cases h : o.block_hash <;> simp [builderBidsSetPairs, h, pair_mem_optPair]
  · cases h : o.block_number <;> simp [builderBidsSetPairs, h, pair_mem_optPair]
  · cases h : o.builder_pubkey <;> simp [builderBidsSetPairs, h, pair_mem_optPair]
  · cases h : o.limit <;> simp [builderBidsSetPairs, h, pair_mem_optPair]

/-- Looking up the inserted key finds the inserted value. -/
theorem lookupAssoc_insertAssoc_self {α : Type} (m : List (String × α)) (k : String) (v : α) :
    lookupAssoc (insertAssoc m k v) k = some v := by
  induction m with
  | nil => simp [insertAssoc, lookupAssoc]
  | cons kv rest ih =>
    obtain ⟨k1, w⟩ := kv
    by_cases h : k1 = k
    · simp [insertAssoc, lookupAssoc, h]
    · simp [insertAssoc, lookupAssoc, h, ih]

/-- Insertion does not disturb lookups of other keys. -/
theorem lookupAssoc_insertAssoc_ne {α : Type} (m : List (String × α)) (k : String) (v : α)
    (name : String) (h : k ≠ name) :
    lookupAssoc (insertAssoc m k v) name = lookupAssoc m name := by
  induction m with
  | nil => simp [insertAssoc, lookupAssoc, h]
  | cons kv rest ih =>
    obtain ⟨k1, w⟩ := kv
    by_cases h1 : k1 = k
    · simp [insertAssoc, lookupAssoc, h1, h]
    · simp [insertAssoc, lookupAssoc, h1, ih]

/-- The registration fan-out loop yields exactly the successful relays:
lookup of a processed relay returns its single-relay result when that call
succeeded and nothing when it failed; unprocessed keys fall through to the
accumulator. -/
theorem regAllLoop_lookup (c : Client) (pk : String) (names : List (String × String)) :
    ∀ (acc : List (String × ValidatorEntry)),
      (∀ n ∈ names.map Prod.fst, lookupAssoc acc n = none) →
      (names.map Prod.fst).Nodup →
      ∀ name, lookupAssoc (regAllLoop c pk names acc) name =
        if name ∈ names.map Prod.fst
        then exceptToOption (c.get_validator_registration name pk)
        else lookupAssoc acc name := by
  induction names with
  | nil =>
    intro acc _ _ name
    simp [regAllLoop]
  | cons p rest ih =>
    obtain ⟨k, url⟩ := p
    intro acc hdisj hnodup name
    simp only [List.map_cons, List.nodup_cons] at hnodup
    obtain ⟨hk_not, hnodup_rest⟩ := hnodup
    simp only [regAllLoop]
    cases hc : c.get_validator_registration k pk with
    | ok v =>
      have hdisj2 : ∀ n ∈ rest.map Prod.fst, lookupAssoc (insertAssoc acc k v) n = none := by
        intro n hn
        have hkn : k ≠ n := fun he => hk_not (he ▸ hn)
        rw [lookupAssoc_insertAssoc_ne acc k v n hkn]
        exact hdisj n (by simp [hn])
      rw [ih (insertAssoc acc k v) hdisj2 hnodup_rest name]
      by_cases hmem : name ∈ rest.map Prod.fst
      · simp [hmem]
      · by_cases hnk : name = k
        · subst hnk
          simp [hmem, lookupAssoc_insertAssoc_self, hc, exceptToOption]
        · have hk : k ≠ name := fun he => hnk he.symm
          rw [lookupAssoc_insertAssoc_ne acc k v name hk]
          simp [hmem, hnk]
    | error e =>
      rw [ih acc (fun n hn => hdisj n (by simp [hn])) hnodup_rest name]
      by_cases hmem : name ∈ rest.map Prod.fst
      · simp [hmem]
      · by_cases hnk : name = k
        · subst hnk
          simp [hmem, hc, exceptToOption, hdisj name (by simp)]
        · simp [hmem, hnk]

/-- When every single-relay registration call fails, the fan-out loop
leaves its accumulator untouched. -/
theorem regAllLoop_allFail (c : Client) (pk : String) (names : List (String × String)) :
    ∀ (acc : List (String × ValidatorEntry)),
      (∀ p ∈ names, exceptIsOk (c.get_validator_registration p.1 pk) = false) →
      regAllLoop c pk names acc = acc := by
  induction names with
  | nil => intro acc _; rfl
  | cons p rest ih =>
    intro acc h
    simp only [regAllLoop]
    cases hc : c.get_validator_registration p.1 pk with
    | ok v =>
      have hfalse := h p (by simp)
      rw [hc] at hfalse
      simp [exceptIsOk] at hfalse
    | error e => exact ih acc (fun q hq => h q (by simp [hq]))

/-- When every relay reports zero registrations, the slot-collection loop
leaves its accumulator untouched and succeeds. -/
theorem regSlotsLoop_allEmpty (c : Client) (names : List (String × String)) :
    ∀ (acc : List (Nat × List String)),
      (∀ p ∈ names, c.get_validators_for_current_and_next_epoch p.1 = .ok []) →
      regSlotsLoop c names acc = .ok acc := by
  induction names with
  | nil => intro acc _; rfl
  | cons p rest ih =>
    intro acc h
    simp only [regSlotsLoop]
    rw [h p (by simp)]
    exact ih acc (fun q hq => h q (by simp [hq]))

/-- The CLI winning-bid loop refines the spec correlator: whenever every
relay with a non-empty payload list gets at least one bid back from its
builder-blocks query, the loop appends exactly the spec's entries, in
order, to its accumulator. -/
theorem winningBidLoop_spec (c : Client) (slot : Nat) :
    ∀ (ps : List (String × List PayloadBidtrace)) (acc : List (String × Nat)),
      (∀ relay p rest, (relay, p :: rest) ∈ ps →
        ∃ bid bids, c.get_builder_blocks_received relay
          { slot := some slot, block_hash := some p.block_hash } = .ok (bid :: bids)) →
      winningBidLoop c slot ps acc = .ok (acc ++ winningBidTimestampSpec c slot ps) := by
  intro ps
  induction ps with
  | nil =>
    intro acc _
    simp [winningBidLoop, winningBidTimestampSpec]
  | cons rp rest ih =>
    obtain ⟨relay, rps⟩ := rp
    intro acc hb
    cases rps with
    | nil =>
      simp only [winningBidLoop]
      rw [ih acc (fun r q rs hm => hb r q rs (List.mem_cons_of_mem _ hm))]
      simp [winningBidTimestampSpec]
    | cons p rest2 =>
      obtain ⟨bid, bids, hcall⟩ := hb relay p rest2 (by simp)
      simp only [winningBidLoop]
      rw [hcall]
      show winningBidLoop c slot rest (acc ++ [(relay, bid.timestamp_ms)]) =
        CliOutcome.ok (acc ++ winningBidTimestampSpec c slot ((relay, p :: rest2) :: rest))
      rw [ih (acc ++ [(relay, bid.timestamp_ms)])
            (fun r q rs hm => hb r q rs (List.mem_cons_of_mem _ hm))]
      simp [winningBidTimestampSpec, hcall]

/-! ## Claim theorems -/

/-- Claim C1 (code bug evaluated): on the spec scenario of relay X
registered at slot 100 and relay Y at slot 105,
`get_validator_registration_for_all_slots_on_all_relays` fills only the 63
slots 100..162 — slot 163 of the claimed 64-slot window is missing — and
the vanilla-slot set has 61 elements instead of the 62 the claimed window
minus \x7b100, 105\x7d would give. The fill loop `initial_slot..initial_slot + 63`
is a half-open Rust range of 63 slots, contradicting the source comment
that the total is 32 + 32 = 64 slots. -/
theorem claim_c1_slot_range_off_by_one :
    (((List.range 63).all fun i =>
        (resultKeys clientXY.get_validator_registration_for_all_slots_on_all_relays).contains
          (100 + i)) = true) ∧
    ((resultKeys clientXY.get_validator_registration_for_all_slots_on_all_relays).contains 163
      = false) ∧
    vanillaCount clientXY.get_vanilla_slots_for_current_and_next_epoch = 61 := by
  decide

/-- Claim C2 (code bug evaluated): on the spec scenario of a relay whose
delivered-payloads response is non-empty but whose builder-blocks lookup
returns zero bids, the CLI winning-bid-timestamp branch evaluates
`block_bids[0]` on the empty vector and panics; no per-relay
CorrelationFailure is reported to the caller. -/
theorem claim_c2_empty_bids_panics :
    winning_bid_timestamp clientNoBids 7761220 =
      .panicked "index out of bounds: the len is 0 but the index is 0" := by
  decide

/-- Claim C3 (counterexample): when the relay reports no registration
(empty response body), `get_validator_registration` fails with the generic
JSON-parse error — the same `ClientError.parse` outcome a malformed body
produces — not with a distinct NotRegistered outcome distinguishable from
a parse failure. -/
theorem claim_c3_counterexample :
    clientEmptyBody.get_validator_registration "r" "pk" =
      .error (.parse "Failed to parse JSON response: EOF while parsing a value") ∧
    isParseFailure (clientEmptyBody.get_validator_registration "r" "pk") = true ∧
    isParseFailure (clientMalformedBody.get_validator_registration "r" "pk") = true := by
  decide

/-- Claim C3 (amended): for every relay table and pubkey, when the relay
endpoint answers the registration check with an empty body, the call fails
with the generic JSON-parse error (`Failed to parse JSON response: ...`);
the client has no distinct NotRegistered outcome. -/
theorem claim_c3_empty_body_is_parse_error (relays : List (String × String))
    (http : String → Except String String) (relay pubkey url : String)
    (hurl : lookupAssoc relays relay = some url)
    (hbody : http (url ++ CHECK_VALIDATOR_REGISTRATION ++ "?pubkey=" ++ pubkey) = .ok "") :
    Client.get_validator_registration ⟨relays, http⟩ relay pubkey =
      .error (.parse "Failed to parse JSON response: EOF while parsing a value") := by
  have h1 : Client.get_relay_url ⟨relays, http⟩ relay = Except.ok url := by
    simp [Client.get_relay_url, hurl]
  have h2 : Client.fetch ⟨relays, http⟩
      (url ++ CHECK_VALIDATOR_REGISTRATION ++ "?pubkey=" ++ pubkey) = Except.ok "" := by
    simp [Client.fetch, hbody]
  unfold Client.get_validator_registration
  rw [h1]
  simp only [h2]
  rfl

/-- Claim C3 witness: the amended statement at a concrete one-relay client
whose server returns an empty body. -/
theorem claim_c3_witness :
    Client.get_validator_registration ⟨[("r", "https://r")], fun _ => .ok ""⟩ "r" "pk" =
      .error (.parse "Failed to parse JSON response: EOF while parsing a value") :=
  claim_c3_empty_body_is_parse_error [("r", "https://r")] (fun _ => .ok "") "r" "pk" "https://r"
    (by decide) (by decide)

/-- Claim C4: for every client (with distinct relay names, as in a
`HashMap`) and pubkey, `get_validator_registration_on_all_relays` succeeds
and its mapping contains exactly the relays whose single-relay call
succeeded, with their results; a failing relay is omitted. -/
theorem claim_c4_partial_failure_tolerance (c : Client) (pubkey : String)
    (hnodup : (c.relays.map Prod.fst).Nodup) :
    ∃ m, c.get_validator_registration_on_all_relays pubkey = Except.ok m ∧
      ∀ name, lookupAssoc m name =
        if name ∈ c.relays.map Prod.fst
        then exceptToOption (c.get_validator_registration name pubkey)
        else none := by
  refine ⟨regAllLoop c pubkey c.relays [], rfl, fun name => ?_⟩
  have h := regAllLoop_lookup c pubkey c.relays [] (fun n _ => rfl) hnodup name
  simpa [lookupAssoc] using h

/-- Claim C4 witness: a concrete client on which relay A succeeds and
relay B fails with a transport error. -/
theorem claim_c4_witness :
    ∃ m, clientPartial.get_validator_registration_on_all_relays "pk" = Except.ok m ∧
      ∀ name, lookupAssoc m name =
        if name ∈ clientPartial.relays.map Prod.fst
        then exceptToOption (clientPartial.get_validator_registration name "pk")
        else none :=
  claim_c4_partial_failure_tolerance clientPartial "pk" (by decide)

/-- Claim C5: when every relay reports zero registrations,
`get_validator_registration_for_all_slots_on_all_relays` returns the empty
mapping (no slot range is filled in) and
`get_vanilla_slots_for_current_and_next_epoch` returns the empty set. -/
theorem claim_c5_no_registrations_empty_result (c : Client)
    (h : ∀ relay ∈ c.relays, c.get_validators_for_current_and_next_epoch relay.1 = .ok []) :
    c.get_validator_registration_for_all_slots_on_all_relays = .ok [] ∧
    c.get_vanilla_slots_for_current_and_next_epoch = .ok [] := by
  have hm : c.get_validator_registration_for_all_slots_on_all_relays = .ok [] := by
    unfold Client.get_validator_registration_for_all_slots_on_all_relays
    rw [regSlotsLoop_allEmpty c c.relays [] h]
    rfl
  refine ⟨hm, ?_⟩
  unfold Client.get_vanilla_slots_for_current_and_next_epoch
  rw [hm]
  rfl

/-- Claim C5 witness: a concrete client whose single relay answers the
epoch-validators query with an empty list. -/
theorem claim_c5_witness :
    clientNoRegs.get_validator_registration_for_all_slots_on_all_relays = .ok [] ∧
    clientNoRegs.get_vanilla_slots_for_current_and_next_epoch = .ok [] :=
  claim_c5_no_registrations_empty_result clientNoRegs (by decide)

/-- Claim C6: each query-option encoder emits `?` followed by one
`key=value&` pair per set field in the declaration order of the filter's
fields; a key appears among the emitted pairs exactly when its field is
set (so unset keys are absent); and two filters with identical populated
fields encode to byte-identical strings. -/
theorem claim_c6_encoder_declaration_order :
    (∀ o : PayloadDeliveredQueryOptions,
        o.to_string = "?" ++ pairsToQuery (payloadDeliveredSetPairs o)) ∧
    (∀ o : BuilderBidsReceivedOptions,
        o.to_string = "?" ++ pairsToQuery (builderBidsSetPairs o)) ∧
    (∀ o : PayloadDeliveredQueryOptions,
        ("slot" ∈ (payloadDeliveredSetPairs o).map Prod.fst ↔ o.slot ≠ none) ∧
        ("cursor" ∈ (payloadDeliveredSetPairs o).map Prod.fst ↔ o.cursor ≠ none) ∧
        ("limit" ∈ (payloadDeliveredSetPairs o).map Prod.fst ↔ o.limit ≠ none) ∧
        ("block_hash" ∈ (payloadDeliveredSetPairs o).map Prod.fst ↔ o.block_hash ≠ none) ∧
        ("block_number" ∈ (payloadDeliveredSetPairs o).map Prod.fst ↔ o.block_number ≠ none) ∧
        ("proposer_pubkey" ∈ (payloadDeliveredSetPairs o).map Prod.fst ↔ o.proposer_pubkey ≠ none) ∧
        ("builder_pubkey" ∈ (payloadDeliveredSetPairs o).map Prod.fst ↔ o.builder_pubkey ≠ none) ∧
        ("order_by" ∈ (payloadDeliveredSetPairs o).map Prod.fst ↔ o.order_by ≠ none)) ∧
    (∀ o : BuilderBidsReceivedOptions,
        ("slot" ∈ (builderBidsSetPairs o).map Prod.fst ↔ o.slot ≠ none) ∧
        ("block_hash" ∈ (builderBidsSetPairs o).map Prod.fst ↔ o.block_hash ≠ none) ∧
        ("block_number" ∈ (builderBidsSetPairs o).map Prod.fst ↔ o.block_number ≠ none) ∧
        ("builder_pubkey" ∈ (builderBidsSetPairs o).map Prod.fst ↔ o.builder_pubkey ≠ none) ∧
        ("limit" ∈ (builderBidsSetPairs o).map Prod.fst ↔ o.limit ≠ none)) ∧
    (∀ o o2 : PayloadDeliveredQueryOptions,
        payloadDeliveredSetPairs o = payloadDeliveredSetPairs o2 → o.to_string = o2.to_string) ∧
    (∀ o o2 : BuilderBidsReceivedOptions,
        builderBidsSetPairs o = builderBidsSetPairs o2 → o.to_string = o2.to_string) :=
  ⟨payload_to_string_spec, builder_to_string_spec, payload_unset_keys, builder_unset_keys,
   fun o o2 h => by rw [payload_to_string_spec, payload_to_string_spec, h],
   fun o o2 h => by rw [builder_to_string_spec, builder_to_string_spec, h]⟩

/-- Claim C6 witness: the determinism component applied at a concrete
filter, and the characterization evaluated on it. -/
theorem claim_c6_witness :
    PayloadDeliveredQueryOptions.to_string { slot := some 7761220 } =
      PayloadDeliveredQueryOptions.to_string
        { slot := some 7761220, cursor := none, limit := none, block_hash := none,
          block_number := none, proposer_pubkey := none, builder_pubkey := none,
          order_by := none } ∧
    PayloadDeliveredQueryOptions.to_string { slot := some 7761220 } = "?slot=7761220&" :=
  ⟨claim_c6_encoder_declaration_order.2.2.2.2.1 _ _ (by decide),
   (claim_c6_encoder_declaration_order.1 _).trans (by decide)⟩

/-- Claim C7: for every slot and every relay-outcome pattern in which
each relay with a non-empty delivered-payloads response gets at least one
bid back, the CLI winning-bid-timestamp query produces exactly the spec
correlator's entries — for each relay with a non-empty payload list, the
first bid's timestamp of the builder-blocks query to that relay filtered
by the slot and the first payload's block hash; relays with no delivered
payload produce no entry. In particular, on the spec scenario where
`ultrasound` returns one payload for slot 7761220 with block hash `0xabc`,
its matching builder-blocks query returns one bid with timestamp
1690000000000 ms, and `flashbots` delivers nothing, the output is exactly
`[("ultrasound", 1690000000000)]`. -/
theorem claim_c7_winning_bid_correlation :
    (∀ (c : Client) (slot : Nat) (payloads : List (String × List PayloadBidtrace)),
      c.get_payloads_delivered_bidtraces_on_all_relays { slot := some slot } = .ok payloads →
      (∀ relay p rest, (relay, p :: rest) ∈ payloads →
        ∃ bid bids, c.get_builder_blocks_received relay
          { slot := some slot, block_hash := some p.block_hash } = .ok (bid :: bids)) →
      winning_bid_timestamp c slot = .ok (winningBidTimestampSpec c slot payloads)) ∧
    winning_bid_timestamp clientWinning 7761220 = .ok [("ultrasound", 1690000000000)] := by
  refine ⟨fun c slot payloads hp hb => ?_, by decide⟩
  unfold winning_bid_timestamp
  rw [hp]
  have h := winningBidLoop_spec c slot payloads [] hb
  simpa using h

/-- Claim C7 witness: the universal correlator characterization applied at
the concrete two-relay scenario client, with its payload mapping and
non-empty bid responses supplied explicitly. -/
theorem claim_c7_witness :
    winning_bid_timestamp clientWinning 7761220 =
      .ok (winningBidTimestampSpec clientWinning 7761220
            [("ultrasound", [payloadUS]), ("flashbots", [])]) :=
  claim_c7_winning_bid_correlation.1 clientWinning 7761220
    [("ultrasound", [payloadUS]), ("flashbots", [])] (by decide)
    (by
      intro relay p rest hmem
      simp only [List.mem_cons, List.not_mem_nil, or_false] at hmem
      rcases hmem with h1 | h2
      · obtain ⟨hr, hp2⟩ := Prod.mk.injEq .. ▸ h1
        cases List.cons.injEq .. ▸ hp2 with
        | intro hph hrest =>
          subst hr
          subst hph
          exact ⟨bidUS, [], by decide⟩
      · exact absurd (congrArg Prod.snd h2) (by simp))

/-- Claim C8: the normalizer decodes a numeric field transmitted as a JSON
string to the true numeric value when the string is a valid unsigned
integer, and fails with a malformed-field error naming the field when it
is not. -/
theorem claim_c8_number_from_string (s : String) :
    (∀ n, parseU64 s = some n → n < 2 ^ 64 →
      payloadBidtraceFromJson (c8Body (.str s)) = .ok (c8Entity n)) ∧
    (parseU64 s = none →
      payloadBidtraceFromJson (c8Body (.str s)) =
        .error "invalid digit found in string: field `slot`") := by
  constructor
  · intro n hn hb
    have hb2 : n < 18446744073709551616 := hb
    simp [payloadBidtraceFromJson, c8Body, numberFromStringField, lookupAssoc, strField,
      c8Entity, hn, hb2, okBind, errorBind]
  · intro hn
    simp [payloadBidtraceFromJson, c8Body, numberFromStringField, lookupAssoc, strField, hn,
      okBind, errorBind]

/-- Claim C8 witness: `"slot": "123"` decodes to numeric slot 123, and
`"slot": "abc"` fails with the malformed-field error. -/
theorem claim_c8_witness :
    payloadBidtraceFromJson (c8Body (.str "123")) = .ok (c8Entity 123) ∧
    payloadBidtraceFromJson (c8Body (.str "abc")) =
      .error "invalid digit found in string: field `slot`" :=
  ⟨(claim_c8_number_from_string "123").1 123 (by decide) (by decide),
   (claim_c8_number_from_string "abc").2 (by decide)⟩

/-- Claim C9: registry lookup of an absent relay name yields the
UnknownRelay error naming that relay — never a default endpoint — and
lookup of a present name deterministically returns that name's base
endpoint, with no I/O involved. -/
theorem claim_c9_registry_lookup (relays : List (String × String))
    (http : String → Except String String) (name : String) :
    (lookupAssoc relays name = none →
      Client.get_relay_url ⟨relays, http⟩ name = .error (.unknownRelay name)) ∧
    (∀ url, lookupAssoc relays name = some url →
      Client.get_relay_url ⟨relays, http⟩ name = .ok url) := by
  constructor
  · intro h
    simp [Client.get_relay_url, h]
  · intro url h
    simp [Client.get_relay_url, h]

/-- Claim C9 witness: on the default relay table, `nonexistent` misses and
`ultrasound` resolves to its fixed endpoint. -/
theorem claim_c9_witness :
    Client.get_relay_url ⟨DEFAULT_RELAYS, fun _ => .error "offline"⟩ "nonexistent" =
      .error (.unknownRelay "nonexistent") ∧
    Client.get_relay_url ⟨DEFAULT_RELAYS, fun _ => .error "offline"⟩ "ultrasound" =
      .ok "https://0xa1559ace749633b997cb3fdacffb890aeebdb0f5a3b6aaa7eeeaf1a38af0a8fe88b9e4b1f61f236d2e64d95733327a62@relay.ultrasound.money" :=
  ⟨(claim_c9_registry_lookup DEFAULT_RELAYS (fun _ => .error "offline") "nonexistent").1
      (by decide),
   (claim_c9_registry_lookup DEFAULT_RELAYS (fun _ => .error "offline") "ultrasound").2 _
      (by decide)⟩

/-- Claim C10: for every client and pubkey,
`get_validator_registration_on_all_relays` returns a successful mapping —
it never returns an error — and when every single-relay call fails the
mapping is empty. -/
theorem claim_c10_aggregate_never_fails (c : Client) (pubkey : String) :
    (∃ m, c.get_validator_registration_on_all_relays pubkey = Except.ok m) ∧
    ((∀ relay ∈ c.relays, exceptIsOk (c.get_validator_registration relay.1 pubkey) = false) →
      c.get_validator_registration_on_all_relays pubkey = Except.ok []) := by
  refine ⟨⟨_, rfl⟩, fun h => ?_⟩
  unfold Client.get_validator_registration_on_all_relays
  rw [regAllLoop_allFail c pubkey c.relays [] h]

/-- Claim C10 witness: a concrete client on which every relay call fails
at the transport layer still yields a successful empty mapping. -/
theorem claim_c10_witness :
    clientAllFail.get_validator_registration_on_all_relays "pk" = Except.ok [] :=
  (claim_c10_aggregate_never_fails clientAllFail "pk").2 (by decide)

end MevBoost
